import Mathlib

/-!
# Order-service database initializer

A shallow embedding of `practical_5/order-service/database/db.go`.

The Go file holds one package-level variable, `DB *gorm.DB`, and one
function, `Connect(dsn string) error`.  `Connect` calls two routines of the
external ORM, `gorm.Open(postgres.Open(dsn), &gorm.Config{})` and
`(*gorm.DB).AutoMigrate`, and the standard logger.  The two ORM routines are
not part of this repository; they are taken as parameters (`Env`), so every
theorem below holds for whatever they do.  The state touched by `Connect` is
passed explicitly (`State`).
-/

namespace Database

/-- A non-nil Go `error` value, told apart by its message.  A Go result of
type `error` is an `Option GoError`, with `none` for `nil`. -/
structure GoError where
  msg : String
  deriving DecidableEq, Repr

/-- The object a non-nil `*gorm.DB` points to, told apart by an identity.  A
Go value of type `*gorm.DB` is an `Option GormDB`, with `none` for `nil`. -/
structure GormDB where
  id : Nat
  deriving DecidableEq, Repr

/-- The entity descriptors of package `models` that `Connect` hands to the
migration: `&models.Order{}` and `&models.OrderItem{}`. -/
inductive Model where
  | Order
  | OrderItem
  deriving DecidableEq, Repr

/-- One call made by `Connect` to an external routine, with its arguments.
The list of these calls is bookkeeping added by the embedding, so that
"is called once" and "is called with" can be stated. -/
inductive Call where
  | gormOpen (dsn : String)
  | autoMigrate (db : Option GormDB) (dst : List Model)
  deriving DecidableEq, Repr

/-- The external routines `Connect` calls, over a database state `σ`.

* `gormOpen dsn` stands for `gorm.Open(postgres.Open(dsn), &gorm.Config{})`
  and gives both Go results, the `*gorm.DB` and the `error`.
* `autoMigrate db dst s` stands for `db.AutoMigrate(dst...)` run against a
  database in state `s`; it gives the `error` and the database state it
  leaves behind (also when it fails). The receiver `db` may be `nil`; what
  the routine does then is its own business.

An `Env` fixes what the routines return during one call of `Connect`. The
driver allocates a new object at every call and the server may have changed
in between, so a later call of `Connect` is given an open step of its own
(`Env.withOpen`). -/
structure Env (σ : Type) where
  gormOpen : String → Option GormDB × Option GoError
  autoMigrate : Option GormDB → List Model → σ → Option GoError × σ

/-- Everything `Connect` reads or writes.

* `DB` is the package-level `var DB *gorm.DB`.
* `log` holds the messages written with `log.Println`, oldest first.
* `schema` is the state of the target database.
* `calls` lists the external calls made so far, oldest first. -/
structure State (σ : Type) where
  DB : Option GormDB
  log : List String
  schema : σ
  calls : List Call

/-- The arguments of `DB.AutoMigrate(&models.Order{}, &models.OrderItem{})`. -/
def migrated : List Model := [Model.Order, Model.OrderItem]

/-- The text passed to `log.Println` at the end of `Connect`. -/
def connectedMsg : String := "Order-service database connected and migrated"

/-- The function `Connect` of `db.go`, statement by statement.

```go
var err error
DB, err = gorm.Open(postgres.Open(dsn), &gorm.Config{})
if err != nil { return err }
err = DB.AutoMigrate(&models.Order{}, &models.OrderItem{})
if err != nil { return err }
log.Println("Order-service database connected and migrated")
return nil
```

The result is the returned `error` and the state after the call. -/
def Connect {σ : Type} (env : Env σ) (dsn : String) (st : State σ) :
    Option GoError × State σ :=
  -- DB, err = gorm.Open(postgres.Open(dsn), &gorm.Config{})
  let r := env.gormOpen dsn
  let st1 : State σ :=
    { st with DB := r.1, calls := st.calls ++ [Call.gormOpen dsn] }
  match r.2 with
  | some err => (some err, st1)
  | none =>
    -- err = DB.AutoMigrate(&models.Order{}, &models.OrderItem{})
    let m := env.autoMigrate st1.DB migrated st1.schema
    let st2 : State σ :=
      { st1 with schema := m.2,
                 calls := st1.calls ++ [Call.autoMigrate st1.DB migrated] }
    match m.1 with
    | some err => (some err, st2)
    | none =>
      -- log.Println("Order-service database connected and migrated")
      (none, { st2 with log := st2.log ++ [connectedMsg] })

/-- How many calls of `gorm.Open` a call list holds. -/
def openCount : List Call → Nat
  | [] => 0
  | Call.gormOpen _ :: cs => openCount cs + 1
  | Call.autoMigrate _ _ :: cs => openCount cs

/-- How many calls of `AutoMigrate` a call list holds. -/
def migrateCount : List Call → Nat
  | [] => 0
  | Call.gormOpen _ :: cs => migrateCount cs
  | Call.autoMigrate _ _ :: cs => migrateCount cs + 1

/-- The data-source strings passed to `gorm.Open`, in call order. -/
def openArgs : List Call → List String
  | [] => []
  | Call.gormOpen dsn :: cs => dsn :: openArgs cs
  | Call.autoMigrate _ _ :: cs => openArgs cs

/-! ## Sample environments and states, used to instantiate the theorems -/

/-- A database state given by the entities that have a table. -/
abbrev Tables := List Model

/-- Adds to `s` a table for each entity of `dst` that has none yet. -/
def addTables (dst : List Model) (s : Tables) : Tables :=
  dst.foldl (fun acc m => if m ∈ acc then acc else acc ++ [m]) s

/-- A driver that accepts every data-source string but the empty one and a
migration that adds the missing tables. On a refused string the driver still
hands back an object, as a Go function with two results may. -/
def sampleEnv : Env Tables where
  gormOpen := fun dsn =>
    if dsn = "" then (some ⟨0⟩, some ⟨"empty dsn"⟩) else (some ⟨1⟩, none)
  autoMigrate := fun _ dst s => (none, addTables dst s)

/-- As `sampleEnv`, with a migration that is refused and changes nothing. -/
def deniedEnv : Env Tables where
  gormOpen := sampleEnv.gormOpen
  autoMigrate := fun _ _ s => (some ⟨"permission denied"⟩, s)

/-- A process that has not connected yet, against an empty database. -/
def freshState : State Tables :=
  { DB := none, log := [], schema := [], calls := [] }

/-- A process that connected before: `DB` holds an earlier handle and the
log an earlier line. -/
def connectedState : State Tables :=
  { DB := some ⟨7⟩, log := [connectedMsg], schema := [],
    calls := [Call.gormOpen "dbname=old", Call.autoMigrate (some ⟨7⟩) migrated] }

/-- A database state that counts the migrations run against it; the
migration is refused on a database no migration has run against yet and
succeeds from then on. -/
def tallyEnv : Env Nat where
  gormOpen := fun _ => (some ⟨1⟩, none)
  autoMigrate := fun _ _ n => (if n = 0 then some ⟨"busy"⟩ else none, n + 1)

/-- A process that has not connected yet, against the database of `tallyEnv`
before any migration. -/
def tallyStart : State Nat :=
  { DB := none, log := [], schema := 0, calls := [] }

/-- A driver that refuses every string and reports the string it was given
as its error. -/
def echoEnv : Env Tables where
  gormOpen := fun dsn => (none, some ⟨dsn⟩)
  autoMigrate := sampleEnv.autoMigrate

/-- A driver that accepts every string, the empty one included. -/
def lenientEnv : Env Tables where
  gormOpen := fun _ => (some ⟨1⟩, none)
  autoMigrate := sampleEnv.autoMigrate

/-! ## The three ways through `Connect` -/

theorem Connect_open_failed {σ : Type} (env : Env σ) (dsn : String) (st : State σ)
    (e : GoError) (h : (env.gormOpen dsn).2 = some e) :
    Connect env dsn st =
      (some e, { st with DB := (env.gormOpen dsn).1,
                         calls := st.calls ++ [Call.gormOpen dsn] }) := by
  simp [Connect, h]

theorem Connect_migrate_failed {σ : Type} (env : Env σ) (dsn : String) (st : State σ)
    (e : GoError) (h : (env.gormOpen dsn).2 = none)
    (hm : (env.autoMigrate (env.gormOpen dsn).1 migrated st.schema).1 = some e) :
    Connect env dsn st =
      (some e,
        { DB := (env.gormOpen dsn).1, log := st.log,
          schema := (env.autoMigrate (env.gormOpen dsn).1 migrated st.schema).2,
          calls := st.calls ++ [Call.gormOpen dsn] ++
            [Call.autoMigrate (env.gormOpen dsn).1 migrated] }) := by
  simp [Connect, h, hm]

theorem Connect_succeeded {σ : Type} (env : Env σ) (dsn : String) (st : State σ)
    (h : (env.gormOpen dsn).2 = none)
    (hm : (env.autoMigrate (env.gormOpen dsn).1 migrated st.schema).1 = none) :
    Connect env dsn st =
      (none,
        { DB := (env.gormOpen dsn).1, log := st.log ++ [connectedMsg],
          schema := (env.autoMigrate (env.gormOpen dsn).1 migrated st.schema).2,
          calls := st.calls ++ [Call.gormOpen dsn] ++
            [Call.autoMigrate (env.gormOpen dsn).1 migrated] }) := by
  simp [Connect, h, hm]

theorem openCount_append (xs ys : List Call) :
    openCount (xs ++ ys) = openCount xs + openCount ys := by
  induction xs with
  | nil => simp [openCount]
  | cons c cs ih =>
    cases c with
    | gormOpen d => simp [openCount, ih]; omega
    | autoMigrate db dst => simp [openCount, ih]

theorem migrateCount_append (xs ys : List Call) :
    migrateCount (xs ++ ys) = migrateCount xs + migrateCount ys := by
  induction xs with
  | nil => simp [migrateCount]
  | cons c cs ih =>
    cases c with
    | gormOpen d => simp [migrateCount, ih]
    | autoMigrate db dst => simp [migrateCount, ih]; omega

theorem openArgs_append (xs ys : List Call) :
    openArgs (xs ++ ys) = openArgs xs ++ openArgs ys := by
  induction xs with
  | nil => simp [openArgs]
  | cons c cs ih => cases c <;> simp [openArgs, ih]

/-- The outcome of `Connect` falls under one of the three cases above. -/
theorem Connect_cases {σ : Type} (env : Env σ) (dsn : String) (st : State σ) :
    (∃ e, (env.gormOpen dsn).2 = some e) ∨
    ((env.gormOpen dsn).2 = none ∧
      ∃ e, (env.autoMigrate (env.gormOpen dsn).1 migrated st.schema).1 = some e) ∨
    ((env.gormOpen dsn).2 = none ∧
      (env.autoMigrate (env.gormOpen dsn).1 migrated st.schema).1 = none) := by
  cases h : (env.gormOpen dsn).2 with
  | some e => exact Or.inl ⟨e, rfl⟩
  | none =>
    cases hm : (env.autoMigrate (env.gormOpen dsn).1 migrated st.schema).1 with
    | some e => exact Or.inr (Or.inl ⟨rfl, e, rfl⟩)
    | none => exact Or.inr (Or.inr ⟨rfl, rfl⟩)

/-! ## The sample migration -/

theorem mem_addTables (dst : List Model) (s : Tables) (m : Model) :
    m ∈ addTables dst s ↔ m ∈ s ∨ m ∈ dst := by
  unfold addTables
  induction dst generalizing s with
  | nil => simp
  | cons d ds ih =>
    rw [List.foldl_cons, ih]
    by_cases hd : d ∈ s
    · simp only [hd, if_true, List.mem_cons]
      constructor
      · rintro (h | h)
        · exact Or.inl h
        · exact Or.inr (Or.inr h)
      · rintro (h | h | h)
        · exact Or.inl h
        · exact Or.inl (h ▸ hd)
        · exact Or.inr h
    · simp only [hd, if_false, List.mem_append, List.mem_singleton, List.mem_cons]
      tauto

/-- C1: `Connect dsn` returns the error `e` exactly when `e` is the error of
the first failing step: either the open step fails with `e`, or the open step
succeeds and the migration step fails with `e`. The error comes back as it
is, never wrapped, replaced or dropped. -/
theorem Connect_returns_first_error {σ : Type} (env : Env σ) (dsn : String)
    (st : State σ) (e : GoError) :
    (Connect env dsn st).1 = some e ↔
      ((env.gormOpen dsn).2 = some e ∨
        ((env.gormOpen dsn).2 = none ∧
          (env.autoMigrate (env.gormOpen dsn).1 migrated st.schema).1 = some e)) := by
  rcases Connect_cases env dsn st with ⟨e1, h⟩ | ⟨h, e2, hm⟩ | ⟨h, hm⟩
  · rw [Connect_open_failed env dsn st e1 h]
    simp [h]
  · rw [Connect_migrate_failed env dsn st e2 h hm]
    simp [h, hm]
  · rw [Connect_succeeded env dsn st h hm]
    simp [h, hm]

/-- C2: `Connect dsn` returns `nil` if and only if both the open step and the
migration step succeed, and then the package variable `DB` is the handle the
open step returned for `dsn`. -/
theorem Connect_nil_iff_both_succeed {σ : Type} (env : Env σ) (dsn : String)
    (st : State σ) :
    ((Connect env dsn st).1 = none ↔
      ((env.gormOpen dsn).2 = none ∧
        (env.autoMigrate (env.gormOpen dsn).1 migrated st.schema).1 = none)) ∧
    ((Connect env dsn st).1 = none →
      (Connect env dsn st).2.DB = (env.gormOpen dsn).1) := by
  rcases Connect_cases env dsn st with ⟨e1, h⟩ | ⟨h, e2, hm⟩ | ⟨h, hm⟩
  · rw [Connect_open_failed env dsn st e1 h]
    simp [h]
  · rw [Connect_migrate_failed env dsn st e2 h hm]
    simp [h, hm]
  · rw [Connect_succeeded env dsn st h hm]
    simp [h, hm]

/-- C3, as the claim states it, fails: the driver of `sampleEnv` refuses the
empty data-source string and hands back an object next to its error; starting
with `DB` unset, `Connect` returns the connect error and `DB` is set. -/
theorem Connect_failed_open_sets_DB :
    (sampleEnv.gormOpen "").2 = some ⟨"empty dsn"⟩ ∧
    freshState.DB = none ∧
    (Connect sampleEnv "" freshState).1 = some ⟨"empty dsn"⟩ ∧
    (Connect sampleEnv "" freshState).2.DB = some ⟨0⟩ ∧
    (Connect sampleEnv "" freshState).2.DB ≠ none := by
  refine ⟨rfl, rfl, rfl, rfl, ?_⟩
  simp [Connect, sampleEnv]

/-- C3, amended: when the open step fails with `e`, then from every starting
state (so also from one in which `DB` is unset) `Connect dsn` returns `e` and
afterwards `DB` holds whatever the open step returned next to its error; so
`DB` is unset afterwards exactly when that value is `nil`. -/
theorem Connect_failed_open_DB {σ : Type} (env : Env σ) (dsn : String)
    (st : State σ) (e : GoError)
    (hopen : (env.gormOpen dsn).2 = some e) :
    (Connect env dsn st).1 = some e ∧
    (Connect env dsn st).2.DB = (env.gormOpen dsn).1 ∧
    ((Connect env dsn st).2.DB = none ↔ (env.gormOpen dsn).1 = none) := by
  rw [Connect_open_failed env dsn st e hopen]
  simp

theorem Connect_failed_open_DB_witness :
    ((sampleEnv.gormOpen "").2 = some ⟨"empty dsn"⟩ ∧ freshState.DB = none) ∧
    ((Connect sampleEnv "" freshState).1 = some ⟨"empty dsn"⟩ ∧
      (Connect sampleEnv "" freshState).2.DB = (sampleEnv.gormOpen "").1 ∧
      ((Connect sampleEnv "" freshState).2.DB = none ↔
        (sampleEnv.gormOpen "").1 = none)) :=
  ⟨⟨rfl, rfl⟩, Connect_failed_open_DB sampleEnv "" freshState ⟨"empty dsn"⟩ rfl⟩

/-! ## The database schema -/

/-- C4: when the open step fails for `dsn`, `Connect dsn` makes the one call
to the open step and none to the migration step, and the database schema
after the call is the schema before it. -/
theorem Connect_failed_open_skips_migration {σ : Type} (env : Env σ) (dsn : String)
    (st : State σ) (e : GoError) (hopen : (env.gormOpen dsn).2 = some e) :
    (Connect env dsn st).2.calls = st.calls ++ [Call.gormOpen dsn] ∧
    migrateCount (Connect env dsn st).2.calls = migrateCount st.calls ∧
    (Connect env dsn st).2.schema = st.schema := by
  rw [Connect_open_failed env dsn st e hopen]
  simp [migrateCount_append, migrateCount]

theorem Connect_failed_open_skips_migration_witness :
    (sampleEnv.gormOpen "").2 = some ⟨"empty dsn"⟩ ∧
    ((Connect sampleEnv "" freshState).2.calls = freshState.calls ++ [Call.gormOpen ""] ∧
      migrateCount (Connect sampleEnv "" freshState).2.calls =
        migrateCount freshState.calls ∧
      (Connect sampleEnv "" freshState).2.schema = freshState.schema) :=
  ⟨rfl, Connect_failed_open_skips_migration sampleEnv "" freshState ⟨"empty dsn"⟩ rfl⟩

/-- C5: let the open step succeed for `dsn` with handle `h`, let the database
be empty (no entity has a table), and let the migration step succeed and add
the tables of the entities it is given (`hasTable s m` reads "in database
state `s` the entity `m` has a table"). Then `Connect dsn` returns `nil`,
afterwards `Order` and `OrderItem` have a table (and nothing else has), and
the migration step was called once, on `h`, with these two entities. -/
theorem Connect_creates_both_tables {σ : Type} (env : Env σ)
    (hasTable : σ → Model → Prop) (dsn : String) (st : State σ) (h : GormDB)
    (hopen : env.gormOpen dsn = (some h, none))
    (hempty : ∀ m, ¬ hasTable st.schema m)
    (hmig : ∀ db dst s, (env.autoMigrate db dst s).1 = none ∧
      ∀ m, hasTable (env.autoMigrate db dst s).2 m ↔ (hasTable s m ∨ m ∈ dst)) :
    (Connect env dsn st).1 = none ∧
    hasTable (Connect env dsn st).2.schema Model.Order ∧
    hasTable (Connect env dsn st).2.schema Model.OrderItem ∧
    (∀ m, hasTable (Connect env dsn st).2.schema m ↔
      m ∈ [Model.Order, Model.OrderItem]) ∧
    (Connect env dsn st).2.calls =
      st.calls ++ [Call.gormOpen dsn,
        Call.autoMigrate (some h) [Model.Order, Model.OrderItem]] := by
  have h2 : (env.gormOpen dsn).2 = none := by rw [hopen]
  have h1 : (env.gormOpen dsn).1 = some h := by rw [hopen]
  have hm := hmig (env.gormOpen dsn).1 migrated st.schema
  have htab : ∀ m, hasTable (env.autoMigrate (env.gormOpen dsn).1 migrated st.schema).2 m ↔
      m ∈ [Model.Order, Model.OrderItem] := by
    intro m
    rw [hm.2 m]
    constructor
    · rintro (hs | hd)
      · exact absurd hs (hempty m)
      · exact hd
    · exact Or.inr
  rw [Connect_succeeded env dsn st h2 hm.1]
  refine ⟨rfl, (htab _).2 (by simp), (htab _).2 (by simp), htab, ?_⟩
  simp [h1, migrated]

theorem Connect_creates_both_tables_witness :
    (sampleEnv.gormOpen "host=localhost port=5432 user=svc password=x dbname=orders sslmode=disable"
        = (some ⟨1⟩, none) ∧
      (∀ m, ¬ m ∈ freshState.schema) ∧
      (∀ db dst s, (sampleEnv.autoMigrate db dst s).1 = none ∧
        ∀ m, m ∈ (sampleEnv.autoMigrate db dst s).2 ↔ (m ∈ s ∨ m ∈ dst))) ∧
    ((Connect sampleEnv
        "host=localhost port=5432 user=svc password=x dbname=orders sslmode=disable"
        freshState).1 = none ∧
      Model.Order ∈ (Connect sampleEnv
        "host=localhost port=5432 user=svc password=x dbname=orders sslmode=disable"
        freshState).2.schema ∧
      Model.OrderItem ∈ (Connect sampleEnv
        "host=localhost port=5432 user=svc password=x dbname=orders sslmode=disable"
        freshState).2.schema ∧
      (∀ m, m ∈ (Connect sampleEnv
        "host=localhost port=5432 user=svc password=x dbname=orders sslmode=disable"
        freshState).2.schema ↔ m ∈ [Model.Order, Model.OrderItem]) ∧
      (Connect sampleEnv
        "host=localhost port=5432 user=svc password=x dbname=orders sslmode=disable"
        freshState).2.calls =
        freshState.calls ++
          [Call.gormOpen
            "host=localhost port=5432 user=svc password=x dbname=orders sslmode=disable",
          Call.autoMigrate (some ⟨1⟩) [Model.Order, Model.OrderItem]]) :=
  ⟨⟨rfl, fun m hm => by simp [freshState] at hm,
      fun _ dst s => ⟨rfl, fun m => mem_addTables dst s m⟩⟩,
    Connect_creates_both_tables sampleEnv (fun s m => m ∈ s)
      "host=localhost port=5432 user=svc password=x dbname=orders sslmode=disable"
      freshState ⟨1⟩ rfl (fun m hm => by simp [freshState] at hm)
      (fun _ dst s => ⟨rfl, fun m => mem_addTables dst s m⟩)⟩

/-- C7: when `Connect dsn` returns `nil`, the call has appended exactly one
line to the log, with the text "Order-service database connected and
migrated"; from an empty log, the log afterwards is that one line. -/
theorem Connect_logs_one_line {σ : Type} (env : Env σ) (dsn : String) (st : State σ)
    (hok : (Connect env dsn st).1 = none) :
    (Connect env dsn st).2.log =
      st.log ++ ["Order-service database connected and migrated"] ∧
    (st.log = [] →
      (Connect env dsn st).2.log = ["Order-service database connected and migrated"] ∧
      (Connect env dsn st).2.log.count
        "Order-service database connected and migrated" = 1) := by
  rcases Connect_cases env dsn st with ⟨e1, h⟩ | ⟨h, e2, hm⟩ | ⟨h, hm⟩
  · rw [Connect_open_failed env dsn st e1 h] at hok
    simp at hok
  · rw [Connect_migrate_failed env dsn st e2 h hm] at hok
    simp at hok
  · rw [Connect_succeeded env dsn st h hm]
    refine ⟨rfl, fun hl => ?_⟩
    simp [hl, connectedMsg]

theorem Connect_logs_one_line_witness :
    (Connect sampleEnv "dbname=orders" freshState).1 = none ∧
    ((Connect sampleEnv "dbname=orders" freshState).2.log =
        freshState.log ++ ["Order-service database connected and migrated"] ∧
      (freshState.log = [] →
        (Connect sampleEnv "dbname=orders" freshState).2.log =
          ["Order-service database connected and migrated"] ∧
        (Connect sampleEnv "dbname=orders" freshState).2.log.count
          "Order-service database connected and migrated" = 1)) :=
  ⟨rfl, Connect_logs_one_line sampleEnv "dbname=orders" freshState rfl⟩

/-! ## The external calls -/

/-- C8: one call `Connect dsn` runs the open step once, on `dsn`, and the
migration step once when the open step succeeds and not at all when it
fails, whatever either step returns; there is no second attempt and no other
path.

* The handle published in `DB` is the one the open step returns for `dsn`.
* When the open step fails, its error is returned, and the schema and the
  log are as before the call: nothing is migrated and nothing else is tried.
* When the open step succeeds, the error returned is that of the migration
  step applied to the schema found, and the schema afterwards is what that
  one application left, also when it failed and a second one would not.
* The recorded calls hold one more open call, and one more migration call
  or none. -/
theorem Connect_calls_each_step_once {σ : Type} (env : Env σ) (dsn : String)
    (st : State σ) :
    (Connect env dsn st).2.DB = (env.gormOpen dsn).1 ∧
    ((env.gormOpen dsn).2 ≠ none →
      (Connect env dsn st).1 = (env.gormOpen dsn).2 ∧
      (Connect env dsn st).2.schema = st.schema ∧
      (Connect env dsn st).2.log = st.log) ∧
    ((env.gormOpen dsn).2 = none →
      (Connect env dsn st).1 =
        (env.autoMigrate (env.gormOpen dsn).1 migrated st.schema).1 ∧
      (Connect env dsn st).2.schema =
        (env.autoMigrate (env.gormOpen dsn).1 migrated st.schema).2) ∧
    openCount (Connect env dsn st).2.calls = openCount st.calls + 1 ∧
    ((env.gormOpen dsn).2 = none →
      migrateCount (Connect env dsn st).2.calls = migrateCount st.calls + 1) ∧
    ((env.gormOpen dsn).2 ≠ none →
      migrateCount (Connect env dsn st).2.calls = migrateCount st.calls) ∧
    migrateCount (Connect env dsn st).2.calls ≤ migrateCount st.calls + 1 := by
  rcases Connect_cases env dsn st with ⟨e1, h⟩ | ⟨h, e2, hm⟩ | ⟨h, hm⟩
  · rw [Connect_open_failed env dsn st e1 h]
    simp [h, openCount_append, migrateCount_append, openCount, migrateCount]
  · rw [Connect_migrate_failed env dsn st e2 h hm]
    simp [h, hm, openCount_append, migrateCount_append, openCount, migrateCount]
  · rw [Connect_succeeded env dsn st h hm]
    simp [h, hm, openCount_append, migrateCount_append, openCount, migrateCount]

/-- C8 at two inputs. Against `tallyEnv` the migration is refused the first
time and would be accepted the second time: `Connect` returns the refusal and
the database has seen one migration. Against `sampleEnv` the empty string is
refused by the driver: `Connect` returns that error, and the schema and the
log are untouched although the migration would have added tables. -/
theorem Connect_calls_each_step_once_witness :
    ((tallyEnv.gormOpen "dbname=orders").2 = none ∧
      (Connect tallyEnv "dbname=orders" tallyStart).1 = some ⟨"busy"⟩ ∧
      (Connect tallyEnv "dbname=orders" tallyStart).2.schema = 1 ∧
      (tallyEnv.autoMigrate (some ⟨1⟩) migrated 1).1 = none) ∧
    ((sampleEnv.gormOpen "").2 ≠ none ∧
      (Connect sampleEnv "" freshState).1 = some ⟨"empty dsn"⟩ ∧
      (Connect sampleEnv "" freshState).2.schema = [] ∧
      (Connect sampleEnv "" freshState).2.log = [] ∧
      (sampleEnv.autoMigrate (some ⟨0⟩) migrated []).2 = [Model.Order, Model.OrderItem]) :=
  ⟨⟨rfl,
      ((Connect_calls_each_step_once tallyEnv "dbname=orders" tallyStart).2.2.1 rfl).1,
      ((Connect_calls_each_step_once tallyEnv "dbname=orders" tallyStart).2.2.1 rfl).2,
      rfl⟩,
    ⟨by decide,
      ((Connect_calls_each_step_once sampleEnv "" freshState).2.1 (by decide)).1,
      ((Connect_calls_each_step_once sampleEnv "" freshState).2.1 (by decide)).2.1,
      ((Connect_calls_each_step_once sampleEnv "" freshState).2.1 (by decide)).2.2,
      rfl⟩⟩

/-- C9: `Connect` does no checking of its own. For every string `dsn`, the
empty one included, and every driver:

* what `Connect` publishes in `DB` is the handle the driver returns for `dsn`
  itself, so the driver is handed `dsn` as it is;
* when the driver returns an error for `dsn`, `Connect` returns that error;
* when the driver returns no error for `dsn`, `Connect` goes on to the
  migration and returns what the migration returns, so it returns no
  connect error of its own;
* the one string recorded as handed to the open step is `dsn`, and an error
  returned without a recorded migration call is the driver's error for
  `dsn`. -/
theorem Connect_passes_dsn_unchanged {σ : Type} (env : Env σ) (dsn : String)
    (st : State σ) :
    (Connect env dsn st).2.DB = (env.gormOpen dsn).1 ∧
    (∀ e, (env.gormOpen dsn).2 = some e → (Connect env dsn st).1 = some e) ∧
    ((env.gormOpen dsn).2 = none →
      (Connect env dsn st).1 =
        (env.autoMigrate (env.gormOpen dsn).1 migrated st.schema).1 ∧
      (Connect env dsn st).2.schema =
        (env.autoMigrate (env.gormOpen dsn).1 migrated st.schema).2) ∧
    openArgs (Connect env dsn st).2.calls = openArgs st.calls ++ [dsn] ∧
    (∀ e, (Connect env dsn st).1 = some e →
      migrateCount (Connect env dsn st).2.calls = migrateCount st.calls →
      (env.gormOpen dsn).2 = some e) := by
  rcases Connect_cases env dsn st with ⟨e1, h⟩ | ⟨h, e2, hm⟩ | ⟨h, hm⟩
  · rw [Connect_open_failed env dsn st e1 h]
    simp [h, openArgs_append, openArgs]
  · rw [Connect_migrate_failed env dsn st e2 h hm]
    simp [h, hm, openArgs_append, openArgs, migrateCount_append, migrateCount]
  · rw [Connect_succeeded env dsn st h hm]
    simp [h, hm, openArgs_append, openArgs]

/-- C9 at the empty string and at a string with blanks around it. The driver
of `echoEnv` reports the string it was given: `Connect` returns exactly the
string it was called with. The driver of `lenientEnv` accepts the empty
string: `Connect` then succeeds and the tables are there. -/
theorem Connect_passes_dsn_unchanged_witness :
    (Connect echoEnv "" freshState).1 = some ⟨""⟩ ∧
    (Connect echoEnv " Host=DB " freshState).1 = some ⟨" Host=DB "⟩ ∧
    ((lenientEnv.gormOpen "").2 = none ∧
      (Connect lenientEnv "" freshState).1 = none ∧
      (Connect lenientEnv "" freshState).2.schema = [Model.Order, Model.OrderItem] ∧
      (Connect lenientEnv "" freshState).2.DB = some ⟨1⟩) :=
  ⟨(Connect_passes_dsn_unchanged echoEnv "" freshState).2.1 ⟨""⟩ rfl,
    (Connect_passes_dsn_unchanged echoEnv " Host=DB " freshState).2.1 ⟨" Host=DB "⟩ rfl,
    rfl,
    ((Connect_passes_dsn_unchanged lenientEnv "" freshState).2.2.1 rfl).1,
    ((Connect_passes_dsn_unchanged lenientEnv "" freshState).2.2.1 rfl).2,
    (Connect_passes_dsn_unchanged lenientEnv "" freshState).1⟩

/-! ## The package variable after a failed migration -/

/-- C10: when the open step succeeds for `dsn` and the migration step fails
with `e`, `Connect dsn` returns `e`, yet `DB` has been overwritten with the
handle just opened, whatever it held before, and no line is logged. -/
theorem Connect_failed_migration_keeps_handle {σ : Type} (env : Env σ) (dsn : String)
    (st : State σ) (e : GoError)
    (hopen : (env.gormOpen dsn).2 = none)
    (hmig : (env.autoMigrate (env.gormOpen dsn).1 migrated st.schema).1 = some e) :
    (Connect env dsn st).1 = some e ∧
    (Connect env dsn st).2.DB = (env.gormOpen dsn).1 ∧
    (Connect env dsn st).2.log = st.log := by
  rw [Connect_migrate_failed env dsn st e hopen hmig]
  simp

theorem Connect_failed_migration_keeps_handle_witness :
    ((deniedEnv.gormOpen "dbname=orders").2 = none ∧
      (deniedEnv.autoMigrate (deniedEnv.gormOpen "dbname=orders").1 migrated
        connectedState.schema).1 = some ⟨"permission denied"⟩) ∧
    ((Connect deniedEnv "dbname=orders" connectedState).1 = some ⟨"permission denied"⟩ ∧
      (Connect deniedEnv "dbname=orders" connectedState).2.DB =
        (deniedEnv.gormOpen "dbname=orders").1 ∧
      (Connect deniedEnv "dbname=orders" connectedState).2.log = connectedState.log) :=
  ⟨⟨rfl, rfl⟩,
    Connect_failed_migration_keeps_handle deniedEnv "dbname=orders" connectedState
      ⟨"permission denied"⟩ rfl rfl⟩

end Database
